import Mathlib

/-!
Verification development for the Strange Attractor module
(`software/contrib/strange_attractor.py`).

The attractor engine is embedded shallowly: the Python classes `Attractor`,
`Lorenz`, `PanXuZhou`, `Rossler`, `Rikitake` become a single record with a
closed tag for the dynamic type, Python floats become rationals, and the
fallible scaled-value computations (which raise `ZeroDivisionError` in Python
when a range is zero) return `Option ℚ`.  The controller class
`StrangeAttractor` becomes a record plus explicit state-passing functions; the
hardware reads (`k1`/`k2` positions, button press durations, the millisecond
clock) become explicit arguments.
-/

/-- Maximum voltage output, `MAX_OUTPUT = 5` in the source. -/
def MAX_OUTPUT : ℤ := 5

/-- Closed tag standing for the dynamic (subclass) type of an attractor. -/
inductive AttKind where
  | lorenz
  | panXuZhou
  | rossler
  | rikitake
deriving DecidableEq

/--
State of one attractor object: the fields assigned by `Attractor.__init__`
plus the subclass parameter fields (`s`, `r`, `b` for Lorenz; `a`, `b`, `c`
for Pan-Xu-Zhou and Rossler; `a`, `mu` for Rikitake; unused parameter fields
of a given kind are simply never read by its step function).
-/
structure Attractor where
  kind : AttKind
  initial_state : ℚ × ℚ × ℚ
  x : ℚ
  y : ℚ
  z : ℚ
  dt : ℚ
  name : String
  x_min : ℚ
  y_min : ℚ
  z_min : ℚ
  x_max : ℚ
  y_max : ℚ
  z_max : ℚ
  x_range : ℚ
  y_range : ℚ
  z_range : ℚ
  s : ℚ
  r : ℚ
  b : ℚ
  a : ℚ
  c : ℚ
  mu : ℚ
deriving DecidableEq

/-- `Attractor.__init__(self, point, dt, name)`: coordinates, running bounds
initialised to the initial point, ranges to the arbitrary default 100.
Parameter fields are set by the subclass constructors below. -/
def Attractor.base_init (point : ℚ × ℚ × ℚ) (dt : ℚ) (name : String)
    (kind : AttKind) : Attractor :=
  { kind := kind
    initial_state := point
    x := point.1
    y := point.2.1
    z := point.2.2
    dt := dt
    name := name
    x_min := point.1
    y_min := point.2.1
    z_min := point.2.2
    x_max := point.1
    y_max := point.2.1
    z_max := point.2.2
    x_range := 100
    y_range := 100
    z_range := 100
    s := 0
    r := 0
    b := 0
    a := 0
    c := 0
    mu := 0 }

/-- `Lorenz.__init__`: `super().__init__(point, dt, "Lorenz")` then
`s, r, b = params`. -/
def Lorenz.mk_init (point : ℚ × ℚ × ℚ) (params : ℚ × ℚ × ℚ) (dt : ℚ) :
    Attractor :=
  { Attractor.base_init point dt "Lorenz" AttKind.lorenz with
    s := params.1, r := params.2.1, b := params.2.2 }

/-- `PanXuZhou.__init__`: `a, b, c = params`. -/
def PanXuZhou.mk_init (point : ℚ × ℚ × ℚ) (params : ℚ × ℚ × ℚ) (dt : ℚ) :
    Attractor :=
  { Attractor.base_init point dt "Pan-Xu-Zhou" AttKind.panXuZhou with
    a := params.1, b := params.2.1, c := params.2.2 }

/-- `Rossler.__init__`: `a, b, c = params`. -/
def Rossler.mk_init (point : ℚ × ℚ × ℚ) (params : ℚ × ℚ × ℚ) (dt : ℚ) :
    Attractor :=
  { Attractor.base_init point dt "Rossler" AttKind.rossler with
    a := params.1, b := params.2.1, c := params.2.2 }

/-- `Rikitake.__init__`: `a, mu = params`. -/
def Rikitake.mk_init (point : ℚ × ℚ × ℚ) (params : ℚ × ℚ) (dt : ℚ) :
    Attractor :=
  { Attractor.base_init point dt "Rikitake" AttKind.rikitake with
    a := params.1, mu := params.2 }

/-- `Lorenz.step`: the three derivatives are computed from the current
fields, then each coordinate is incremented by `dot * dt`. -/
def Lorenz.step (att : Attractor) : Attractor :=
  let x_dot := att.s * (att.y - att.x)
  let y_dot := att.r * att.x - att.y - att.x * att.z
  let z_dot := att.x * att.y - att.b * att.z
  { att with
    x := att.x + x_dot * att.dt
    y := att.y + y_dot * att.dt
    z := att.z + z_dot * att.dt }

/-- `PanXuZhou.step`. -/
def PanXuZhou.step (att : Attractor) : Attractor :=
  let x_dot := att.a * (att.y - att.x)
  let y_dot := att.c * att.x - att.x * att.z
  let z_dot := att.x * att.y - att.b * att.z
  { att with
    x := att.x + x_dot * att.dt
    y := att.y + y_dot * att.dt
    z := att.z + z_dot * att.dt }

/-- `Rossler.step`. -/
def Rossler.step (att : Attractor) : Attractor :=
  let x_dot := -(att.y + att.z)
  let y_dot := att.x + att.a * att.y
  let z_dot := att.b + att.z * (att.x - att.c)
  { att with
    x := att.x + x_dot * att.dt
    y := att.y + y_dot * att.dt
    z := att.z + z_dot * att.dt }

/-- `Rikitake.step`. -/
def Rikitake.step (att : Attractor) : Attractor :=
  let x_dot := -(att.mu * att.x) + att.z * att.y
  let y_dot := -(att.mu * att.y) + att.x * (att.z - att.a)
  let z_dot := 1 - att.x * att.y
  { att with
    x := att.x + x_dot * att.dt
    y := att.y + y_dot * att.dt
    z := att.z + z_dot * att.dt }

/-- Dynamic dispatch of `self.step()` on the object's class. -/
def Attractor.step (att : Attractor) : Attractor :=
  match att.kind with
  | AttKind.lorenz => Lorenz.step att
  | AttKind.panXuZhou => PanXuZhou.step att
  | AttKind.rossler => Rossler.step att
  | AttKind.rikitake => Rikitake.step att

/-- `Attractor.x_scaled`: `(100.0 * (self.x - self.x_min)) / self.x_range`;
`none` models the `ZeroDivisionError` Python raises when `x_range == 0`. -/
def Attractor.x_scaled (att : Attractor) : Option ℚ :=
  if att.x_range = 0 then none
  else some ((100 * (att.x - att.x_min)) / att.x_range)

/-- `Attractor.y_scaled`. -/
def Attractor.y_scaled (att : Attractor) : Option ℚ :=
  if att.y_range = 0 then none
  else some ((100 * (att.y - att.y_min)) / att.y_range)

/-- `Attractor.z_scaled`. -/
def Attractor.z_scaled (att : Attractor) : Option ℚ :=
  if att.z_range = 0 then none
  else some ((100 * (att.z - att.z_min)) / att.z_range)

/-- The body of the loop in `Attractor.estimate_ranges`: one `self.step()`
followed by the six running-bound updates. -/
def calibStep (att0 : Attractor) : Attractor :=
  let att := att0.step
  { att with
    x_max := max att.x att.x_max
    y_max := max att.y att.y_max
    z_max := max att.z att.z_max
    x_min := min att.x att.x_min
    y_min := min att.y att.y_min
    z_min := min att.z att.z_min }

/-- `for i in range(steps): ...` — `n` iterations of `calibStep`. -/
def calibLoop (n : ℕ) (att : Attractor) : Attractor :=
  match n with
  | 0 => att
  | n + 1 => calibStep (calibLoop n att)

/-- `Attractor.estimate_ranges(self, steps)`: run the calibration loop, set
each range to `max - min`, then reset the coordinates to `initial_state`. -/
def estimate_ranges (steps : ℕ) (att0 : Attractor) : Attractor :=
  let att := calibLoop steps att0
  { att with
    x_range := att.x_max - att.x_min
    y_range := att.y_max - att.y_min
    z_range := att.z_max - att.z_min
    x := att.initial_state.1
    y := att.initial_state.2.1
    z := att.initial_state.2.2 }

/-- `get_attractors()` with the default constructor arguments. -/
def get_attractors : List Attractor :=
  [Lorenz.mk_init (0, 1, 1.05) (10, 28, 2.667) 0.01,
   PanXuZhou.mk_init (1, 1, 1) (10.0, 2.667, 16.0) 0.01,
   Rikitake.mk_init (0.1, 0.0, -0.1) (5.0, 2.0) 0.01,
   Rossler.mk_init (0.1, 0.0, -0.1) (0.13, 0.2, 6.5) 0.01]

/-- The six values one `StrangeAttractor.update` call emits: three continuous
voltages (`cv1.voltage(...)`) and three gates (`cv4.value(...)` ...).  An
`Option` field is `none` when the Python computation would raise
`ZeroDivisionError` through a zero range. -/
structure Outputs where
  cv1 : Option ℚ
  cv2 : Option ℚ
  cv3 : Option ℚ
  gate4 : Option Bool
  gate5 : Option Bool
  gate6 : Option Bool
deriving DecidableEq

/-- State of the `StrangeAttractor` controller object.  The Python object
keeps both the list `self.attractors` and the alias `self.a =
self.attractors[self.selected_attractor]`; here the alias is the derived
accessor `active` below, so the in-place mutation `self.a.step()` becomes an
update of the selected list entry. -/
structure StrangeAttractor where
  attractors : List Attractor
  selected_attractor : ℕ
  checkpoint : ℤ
  period : ℚ
  range : ℤ
  threshold : ℚ
  freeze : Bool
  show_detail : Bool
  gate4 : Option Bool
  gate5 : Option Bool
  gate6 : Option Bool
deriving DecidableEq

/-- The alias `self.a`: the currently selected attractor. -/
def StrangeAttractor.active (st : StrangeAttractor) : Attractor :=
  st.attractors.getD st.selected_attractor
    (Attractor.base_init (0, 0, 0) 0 "" AttKind.lorenz)

/-- `update_values`: `if not self.freeze: self.a.step()`. -/
def StrangeAttractor.update_values (st : StrangeAttractor) : StrangeAttractor :=
  if st.freeze then st
  else { st with
          attractors := st.attractors.set st.selected_attractor st.active.step }

/-- The period computed by `update_speed` from the knob position
`val = k1.read_position()`: piecewise linear between 1000 (CCW), 100 (noon)
and 10 (CW). -/
def update_speed_period (val : ℚ) : ℚ :=
  let low : ℚ := 1000
  let mid : ℚ := 100
  let high : ℚ := 10
  if val = 0 then low
  else if val < 50 then low - ((low - mid) * (val / 50))
  else mid - ((mid - high) * (val - 50) / 50)

/-- `update_speed`, with the knob reading passed explicitly. -/
def StrangeAttractor.update_speed (val : ℚ) (st : StrangeAttractor) :
    StrangeAttractor :=
  { st with period := update_speed_period val }

/-- `update_threshold`: `self.threshold = k2.read_position(steps=41)`, with
the knob reading passed explicitly. -/
def StrangeAttractor.update_threshold (val : ℚ) (st : StrangeAttractor) :
    StrangeAttractor :=
  { st with threshold := val }

/-- `StrangeAttractor.update`: step unless frozen, emit the three scaled
voltages, compute and store the three gates, set `checkpoint` to the current
time.  `now` stands for `ticks_ms()`. -/
def StrangeAttractor.update (now : ℤ) (st0 : StrangeAttractor) :
    StrangeAttractor × Outputs :=
  let st := st0.update_values
  let att := st.active
  let cv1 := att.x_scaled.map (fun sx => ((st.range : ℚ) * sx) / 100)
  let cv2 := att.y_scaled.map (fun sy => ((st.range : ℚ) * sy) / 100)
  let cv3 := att.z_scaled.map (fun sz => ((st.range : ℚ) * sz) / 100)
  let gate4 := att.x_scaled.map (fun sx => decide (Int.floor sx % 2 = 0))
  let gate5 := att.x_scaled.bind fun sx =>
    att.y_scaled.bind fun sy =>
      att.z_scaled.map fun sz =>
        decide (st.threshold < |sy + sz - 2 * sx|)
  let gate6 := att.x_scaled.bind fun sx =>
    att.y_scaled.bind fun sy =>
      att.z_scaled.map fun sz =>
        decide (st.threshold < |sz + sx - 2 * sy|)
  ({ st with
      gate4 := gate4, gate5 := gate5, gate6 := gate6, checkpoint := now },
   { cv1 := cv1, cv2 := cv2, cv3 := cv3,
     gate4 := gate4, gate5 := gate5, gate6 := gate6 })

/-- One iteration of the `while True` loop in `main`: sample both knobs, then
run `update` only when `ticks_diff(ticks_ms(), self.checkpoint) >
self.period`.  Returns `none` as second component when no update fired. -/
def StrangeAttractor.loopIter (k1val k2val : ℚ) (now : ℤ)
    (st0 : StrangeAttractor) : StrangeAttractor × Option Outputs :=
  let st := (st0.update_speed k1val).update_threshold k2val
  if ((now - st.checkpoint : ℤ) : ℚ) > st.period then
    let res := st.update now
    (res.1, some res.2)
  else (st, none)

/-- The `b1Pressed` falling-edge handler; `duration` stands for
`ticks_diff(ticks_ms(), b1.last_pressed())`.  Long press (`> 300`) selects
the next attractor; short press decrements the range, clamped below at 1. -/
def StrangeAttractor.b1Pressed (duration : ℤ) (st : StrangeAttractor) :
    StrangeAttractor :=
  if duration > 300 then
    { st with
        selected_attractor := (st.selected_attractor + 1) % st.attractors.length }
  else
    let rng := st.range - 1
    { st with range := if rng < 1 then 1 else rng }

/-- The `b2Pressed` falling-edge handler.  Long press toggles the display
mode; short press increments the range, clamped above at `MAX_OUTPUT`. -/
def StrangeAttractor.b2Pressed (duration : ℤ) (st : StrangeAttractor) :
    StrangeAttractor :=
  if duration > 300 then
    { st with show_detail := !st.show_detail }
  else
    let rng := st.range + 1
    { st with range := if rng > MAX_OUTPUT then MAX_OUTPUT else rng }

/-- `dinTrigger`: rising edge on the digital input freezes motion. -/
def StrangeAttractor.dinTrigger (st : StrangeAttractor) : StrangeAttractor :=
  { st with freeze := true }

/-- `dinTriggerEnd`: falling edge resumes motion. -/
def StrangeAttractor.dinTriggerEnd (st : StrangeAttractor) : StrangeAttractor :=
  { st with freeze := false }

/-- A range-adjustment event: a short press on button 1 (decrement) or on
button 2 (increment). -/
inductive RangeEv where
  | dec
  | inc
deriving DecidableEq

/-- Apply one range-adjustment event through the real button handlers with a
short press duration. -/
def applyRangeEv (st : StrangeAttractor) (ev : RangeEv) : StrangeAttractor :=
  match ev with
  | RangeEv.dec => st.b1Pressed 0
  | RangeEv.inc => st.b2Pressed 0

/-- Specification-side update rule, from the spec's words: every axis is
updated as `axis += dt * derivative(pre_step_state)`, all three derivatives
taken from the same pre-step snapshot `d`. -/
def eulerOf (att : Attractor) (d : ℚ × ℚ × ℚ) : Attractor :=
  { att with
    x := att.x + att.dt * d.1
    y := att.y + att.dt * d.2.1
    z := att.z + att.dt * d.2.2 }

/-- Spec right-hand side for Lorenz: `dx=s(y-x); dy=rx-y-xz; dz=xy-bz`. -/
def specLorenzRHS (s r b x y z : ℚ) : ℚ × ℚ × ℚ :=
  (s * (y - x), r * x - y - x * z, x * y - b * z)

/-- Spec right-hand side for Pan-Xu-Zhou: `dx=a(y-x); dy=cx-xz; dz=xy-bz`. -/
def specPanXuZhouRHS (a b c x y z : ℚ) : ℚ × ℚ × ℚ :=
  (a * (y - x), c * x - x * z, x * y - b * z)

/-- Spec right-hand side for Rossler: `dx=-(y+z); dy=x+ay; dz=b+z(x-c)`. -/
def specRosslerRHS (a b c x y z : ℚ) : ℚ × ℚ × ℚ :=
  (-(y + z), x + a * y, b + z * (x - c))

/-- Spec right-hand side for Rikitake: `dx=-mu*x+zy; dy=-mu*y+x(z-a);
`dz=1-xy`. -/
def specRikitakeRHS (a mu x y z : ℚ) : ℚ × ℚ × ℚ :=
  (-(mu * x) + z * y, -(mu * y) + x * (z - a), 1 - x * y)

/-- The x-derivative the dispatched `step` uses, as a function of the record. -/
def rhsX (att : Attractor) : ℚ :=
  match att.kind with
  | AttKind.lorenz => att.s * (att.y - att.x)
  | AttKind.panXuZhou => att.a * (att.y - att.x)
  | AttKind.rossler => -(att.y + att.z)
  | AttKind.rikitake => -(att.mu * att.x) + att.z * att.y

/-- The y-derivative the dispatched `step` uses. -/
def rhsY (att : Attractor) : ℚ :=
  match att.kind with
  | AttKind.lorenz => att.r * att.x - att.y - att.x * att.z
  | AttKind.panXuZhou => att.c * att.x - att.x * att.z
  | AttKind.rossler => att.x + att.a * att.y
  | AttKind.rikitake => -(att.mu * att.y) + att.x * (att.z - att.a)

/-- The z-derivative the dispatched `step` uses. -/
def rhsZ (att : Attractor) : ℚ :=
  match att.kind with
  | AttKind.lorenz => att.x * att.y - att.b * att.z
  | AttKind.panXuZhou => att.x * att.y - att.b * att.z
  | AttKind.rossler => att.b + att.z * (att.x - att.c)
  | AttKind.rikitake => 1 - att.x * att.y

/-- `n` bare steps of the model (no bound tracking). -/
def stepN (n : ℕ) (att : Attractor) : Attractor :=
  match n with
  | 0 => att
  | n + 1 => (stepN n att).step

/-- Running fold of `op` over the value of `f` along the trajectory of
`att`, seeded with `base`: after `n` loop iterations the fold has absorbed
`f` of steps `1..n`. -/
def runFold (op : ℚ → ℚ → ℚ) (f : Attractor → ℚ) (base : ℚ)
    (att : Attractor) : ℕ → ℚ
  | 0 => base
  | n + 1 => op (f (stepN (n + 1) att)) (runFold op f base att n)

/-- Well-formedness of a freshly constructed attractor at `point`: nonzero
default ranges, per-axis minima at the initial coordinates, and scaled
values defined (no division by zero) and equal to zero. -/
def freshOK (point : ℚ × ℚ × ℚ) (att : Attractor) : Prop :=
  att.x_range = 100 ∧ att.y_range = 100 ∧ att.z_range = 100 ∧
  att.x_min = point.1 ∧ att.y_min = point.2.1 ∧ att.z_min = point.2.2 ∧
  att.x_scaled = some 0 ∧ att.y_scaled = some 0 ∧ att.z_scaled = some 0

/-- A Lorenz instance started exactly at the fixed point at the origin: every
step leaves it in place, so a calibration run observes `max == min` on every
axis. -/
def degenAtt : Attractor := Lorenz.mk_init (0, 0, 0) (10, 28, 2.667) 0.01

/-- A concrete controller state as built by `StrangeAttractor.__init__`
(checkpoint 0, period 100, range `MAX_OUTPUT`, threshold 20, not frozen,
detail display on), with the first attractor selected. -/
def sampleCtrl : StrangeAttractor :=
  { attractors := get_attractors
    selected_attractor := 0
    checkpoint := 0
    period := 100
    range := MAX_OUTPUT
    threshold := 20
    freeze := false
    show_detail := true
    gate4 := none
    gate5 := none
    gate6 := none }

/-- `sampleCtrl` after a rising edge on the digital input. -/
def sampleFrozen : StrangeAttractor := sampleCtrl.dinTrigger

/-- A small Lorenz instance with integer data, used to exercise the
calibration machinery on concrete inputs. -/
def smallLorenz : Attractor := Lorenz.mk_init (0, 1, 2) (10, 28, 3) 1

/-- A calibrated attractor with simple integer bounds (`x` in `[0, 2]`,
`y` in `[0, 4]`, `z` in `[1, 3]`), used to exercise the normalizer on
concrete inputs. -/
def calibAtt : Attractor :=
  { Lorenz.mk_init (0, 1, 2) (10, 28, 3) 1 with
    x_min := 0, x_max := 2, x_range := 2
    y_min := 0, y_max := 4, y_range := 4
    z_min := 1, z_max := 3, z_range := 2 }

/-- Characterisation of the dispatched step as a simultaneous update of the
three coordinates by the per-family derivative functions. -/
theorem step_eq (att : Attractor) :
    att.step =
      { att with
        x := att.x + rhsX att * att.dt
        y := att.y + rhsY att * att.dt
        z := att.z + rhsZ att * att.dt } := by
  rcases att with ⟨k, i, x, y, z, dt, nm, xm, ym, zm, xM, yM, zM, xr, yr, zr,
    s, r, b, a, c, mu⟩
  cases k <;> rfl

/-- Stepping commutes with overwriting the six running-bound fields: the
step functions read only the coordinates, parameters and timestep. -/
theorem step_setBounds (att : Attractor) (m1 m2 m3 M1 M2 M3 : ℚ) :
    ({ att with x_min := m1, y_min := m2, z_min := m3,
                x_max := M1, y_max := M2, z_max := M3 } : Attractor).step =
      { att.step with x_min := m1, y_min := m2, z_min := m3,
                      x_max := M1, y_max := M2, z_max := M3 } := by
  rw [step_eq, step_eq]
  rfl

/-- The calibration loop equals: bare trajectory stepping, with the six
bound fields replaced by running folds over the visited points. -/
theorem calibLoop_eq (att : Attractor) (n : ℕ) :
    calibLoop n att =
      { stepN n att with
        x_min := runFold min (fun t => t.x) att.x_min att n
        y_min := runFold min (fun t => t.y) att.y_min att n
        z_min := runFold min (fun t => t.z) att.z_min att n
        x_max := runFold max (fun t => t.x) att.x_max att n
        y_max := runFold max (fun t => t.y) att.y_max att n
        z_max := runFold max (fun t => t.z) att.z_max att n } := by
  induction n with
  | zero => rfl
  | succ n ih =>
      unfold calibLoop
      rw [ih]
      unfold calibStep
      rw [step_setBounds]
      rfl

/-- Stepping preserves the dynamic-type tag. -/
theorem step_kind (att : Attractor) : att.step.kind = att.kind := by rw [step_eq]

/-- Stepping preserves the timestep. -/
theorem step_dt (att : Attractor) : att.step.dt = att.dt := by rw [step_eq]

/-- Stepping preserves the name. -/
theorem step_name (att : Attractor) : att.step.name = att.name := by rw [step_eq]

/-- Stepping preserves the stored initial point. -/
theorem step_initial_state (att : Attractor) :
    att.step.initial_state = att.initial_state := by rw [step_eq]

/-- Stepping preserves the parameter `s`. -/
theorem step_s (att : Attractor) : att.step.s = att.s := by rw [step_eq]

/-- Stepping preserves the parameter `r`. -/
theorem step_r (att : Attractor) : att.step.r = att.r := by rw [step_eq]

/-- Stepping preserves the parameter `b`. -/
theorem step_b (att : Attractor) : att.step.b = att.b := by rw [step_eq]

/-- Stepping preserves the parameter `a`. -/
theorem step_a (att : Attractor) : att.step.a = att.a := by rw [step_eq]

/-- Stepping preserves the parameter `c`. -/
theorem step_c (att : Attractor) : att.step.c = att.c := by rw [step_eq]

/-- Stepping preserves the parameter `mu`. -/
theorem step_mu (att : Attractor) : att.step.mu = att.mu := by rw [step_eq]

/-- Stepping preserves the x range field. -/
theorem step_x_range (att : Attractor) : att.step.x_range = att.x_range := by
  rw [step_eq]

/-- Stepping preserves the y range field. -/
theorem step_y_range (att : Attractor) : att.step.y_range = att.y_range := by
  rw [step_eq]

/-- Stepping preserves the z range field. -/
theorem step_z_range (att : Attractor) : att.step.z_range = att.z_range := by
  rw [step_eq]

/-- Iterated stepping preserves the dynamic-type tag. -/
theorem stepN_kind (att : Attractor) (n : ℕ) : (stepN n att).kind = att.kind := by
  induction n with
  | zero => rfl
  | succ n ih => rw [stepN, step_kind, ih]

/-- Iterated stepping preserves the timestep. -/
theorem stepN_dt (att : Attractor) (n : ℕ) : (stepN n att).dt = att.dt := by
  induction n with
  | zero => rfl
  | succ n ih => rw [stepN, step_dt, ih]

/-- Iterated stepping preserves the name. -/
theorem stepN_name (att : Attractor) (n : ℕ) : (stepN n att).name = att.name := by
  induction n with
  | zero => rfl
  | succ n ih => rw [stepN, step_name, ih]

/-- Iterated stepping preserves the stored initial point. -/
theorem stepN_initial_state (att : Attractor) (n : ℕ) :
    (stepN n att).initial_state = att.initial_state := by
  induction n with
  | zero => rfl
  | succ n ih => rw [stepN, step_initial_state, ih]

/-- Iterated stepping preserves the parameter `s`. -/
theorem stepN_s (att : Attractor) (n : ℕ) : (stepN n att).s = att.s := by
  induction n with
  | zero => rfl
  | succ n ih => rw [stepN, step_s, ih]

/-- Iterated stepping preserves the parameter `r`. -/
theorem stepN_r (att : Attractor) (n : ℕ) : (stepN n att).r = att.r := by
  induction n with
  | zero => rfl
  | succ n ih => rw [stepN, step_r, ih]

/-- Iterated stepping preserves the parameter `b`. -/
theorem stepN_b (att : Attractor) (n : ℕ) : (stepN n att).b = att.b := by
  induction n with
  | zero => rfl
  | succ n ih => rw [stepN, step_b, ih]

/-- Iterated stepping preserves the parameter `a`. -/
theorem stepN_a (att : Attractor) (n : ℕ) : (stepN n att).a = att.a := by
  induction n with
  | zero => rfl
  | succ n ih => rw [stepN, step_a, ih]

/-- Iterated stepping preserves the parameter `c`. -/
theorem stepN_c (att : Attractor) (n : ℕ) : (stepN n att).c = att.c := by
  induction n with
  | zero => rfl
  | succ n ih => rw [stepN, step_c, ih]

/-- Iterated stepping preserves the parameter `mu`. -/
theorem stepN_mu (att : Attractor) (n : ℕ) : (stepN n att).mu = att.mu := by
  induction n with
  | zero => rfl
  | succ n ih => rw [stepN, step_mu, ih]

/-- C6: for every iteration count, the calibration run tracks per-axis
running min and max starting from the current (fresh) coordinates, then
resets the coordinates to the original initial point; every field other
than the six bounds and the three ranges is unchanged, and each range
equals the corresponding max minus min. -/
theorem estimate_ranges_frame (att : Attractor) (n : ℕ)
    (hxm : att.x_min = att.x) (hym : att.y_min = att.y) (hzm : att.z_min = att.z)
    (hxM : att.x_max = att.x) (hyM : att.y_max = att.y) (hzM : att.z_max = att.z)
    (hinit : att.initial_state = (att.x, att.y, att.z)) :
    (estimate_ranges n att).x = att.x ∧
    (estimate_ranges n att).y = att.y ∧
    (estimate_ranges n att).z = att.z ∧
    (estimate_ranges n att).x_min = runFold min (fun t => t.x) att.x att n ∧
    (estimate_ranges n att).y_min = runFold min (fun t => t.y) att.y att n ∧
    (estimate_ranges n att).z_min = runFold min (fun t => t.z) att.z att n ∧
    (estimate_ranges n att).x_max = runFold max (fun t => t.x) att.x att n ∧
    (estimate_ranges n att).y_max = runFold max (fun t => t.y) att.y att n ∧
    (estimate_ranges n att).z_max = runFold max (fun t => t.z) att.z att n ∧
    (estimate_ranges n att).x_range
      = (estimate_ranges n att).x_max - (estimate_ranges n att).x_min ∧
    (estimate_ranges n att).y_range
      = (estimate_ranges n att).y_max - (estimate_ranges n att).y_min ∧
    (estimate_ranges n att).z_range
      = (estimate_ranges n att).z_max - (estimate_ranges n att).z_min ∧
    (estimate_ranges n att).kind = att.kind ∧
    (estimate_ranges n att).initial_state = att.initial_state ∧
    (estimate_ranges n att).dt = att.dt ∧
    (estimate_ranges n att).name = att.name ∧
    (estimate_ranges n att).s = att.s ∧
    (estimate_ranges n att).r = att.r ∧
    (estimate_ranges n att).b = att.b ∧
    (estimate_ranges n att).a = att.a ∧
    (estimate_ranges n att).c = att.c ∧
    (estimate_ranges n att).mu = att.mu := by
  unfold estimate_ranges
  rw [calibLoop_eq]
  simp only [stepN_kind, stepN_dt, stepN_name, stepN_initial_state, stepN_s,
    stepN_r, stepN_b, stepN_a, stepN_c, stepN_mu, hxm, hym, hzm, hxM, hyM,
    hzM, hinit]
  simp

/-- Witness for C6: the frame theorem applied to a concrete fresh Lorenz
instance and one calibration step. -/
theorem estimate_ranges_frame_witness :
    (estimate_ranges 1 smallLorenz).x = smallLorenz.x ∧
    (estimate_ranges 1 smallLorenz).y = smallLorenz.y ∧
    (estimate_ranges 1 smallLorenz).z = smallLorenz.z ∧
    (estimate_ranges 1 smallLorenz).x_min
      = runFold min (fun t => t.x) smallLorenz.x smallLorenz 1 ∧
    (estimate_ranges 1 smallLorenz).kind = smallLorenz.kind := by
  obtain ⟨h1, h2, h3, h4, -, -, -, -, -, -, -, -, h13, -, -, -, -, -, -, -,
      -, -⟩ :=
    estimate_ranges_frame smallLorenz 1 rfl rfl rfl rfl rfl rfl rfl
  exact ⟨h1, h2, h3, h4, h13⟩

/-- C2: each of the four step functions is exactly one explicit forward
Euler update — every axis becomes `axis + dt * derivative`, with all three
derivatives evaluated on the same pre-step snapshot and given by the
per-family right-hand sides of the spec; and the concrete Lorenz regression
from `(0, 1, 1.05)` with `dt = 0.01` gives `x = 0.1`, `y = 0.99`,
`z` within `1/10000` of `1.022`. -/
theorem step_euler_form (att : Attractor) :
    Lorenz.step att
      = eulerOf att (specLorenzRHS att.s att.r att.b att.x att.y att.z) ∧
    PanXuZhou.step att
      = eulerOf att (specPanXuZhouRHS att.a att.b att.c att.x att.y att.z) ∧
    Rossler.step att
      = eulerOf att (specRosslerRHS att.a att.b att.c att.x att.y att.z) ∧
    Rikitake.step att
      = eulerOf att (specRikitakeRHS att.a att.mu att.x att.y att.z) ∧
    (Lorenz.mk_init (0, 1, 1.05) (10, 28, 2.667) 0.01).step.x = 1 / 10 ∧
    (Lorenz.mk_init (0, 1, 1.05) (10, 28, 2.667) 0.01).step.y = 99 / 100 ∧
    |(Lorenz.mk_init (0, 1, 1.05) (10, 28, 2.667) 0.01).step.z - 1022 / 1000|
      < 1 / 10000 := by
  refine ⟨?_, ?_, ?_, ?_, ?_, ?_, ?_⟩
  · rcases att with ⟨k, i, x, y, z, dt, nm, xm, ym, zm, xM, yM, zM, xr, yr, zr,
      s, r, b, a, c, mu⟩
    simp [Lorenz.step, eulerOf, specLorenzRHS, Attractor.mk.injEq, mul_comm]
  · rcases att with ⟨k, i, x, y, z, dt, nm, xm, ym, zm, xM, yM, zM, xr, yr, zr,
      s, r, b, a, c, mu⟩
    simp [PanXuZhou.step, eulerOf, specPanXuZhouRHS, Attractor.mk.injEq,
      mul_comm]
  · rcases att with ⟨k, i, x, y, z, dt, nm, xm, ym, zm, xM, yM, zM, xr, yr, zr,
      s, r, b, a, c, mu⟩
    simp [Rossler.step, eulerOf, specRosslerRHS, Attractor.mk.injEq, mul_comm]
  · rcases att with ⟨k, i, x, y, z, dt, nm, xm, ym, zm, xM, yM, zM, xr, yr, zr,
      s, r, b, a, c, mu⟩
    simp [Rikitake.step, eulerOf, specRikitakeRHS, Attractor.mk.injEq,
      mul_comm]
  · norm_num [Attractor.step, Lorenz.mk_init, Attractor.base_init, Lorenz.step]
  · norm_num [Attractor.step, Lorenz.mk_init, Attractor.base_init, Lorenz.step]
  · norm_num [Attractor.step, Lorenz.mk_init, Attractor.base_init, Lorenz.step,
      abs_lt]

/-- C10: every freshly constructed attractor, of any of the four families
and for any point, parameters and timestep, has the nonzero default range
100 on every axis, minima at the initial coordinates, and well-defined
scaled values equal to zero at the initial point. -/
theorem fresh_init_scaled (point : ℚ × ℚ × ℚ) (params3 : ℚ × ℚ × ℚ)
    (params2 : ℚ × ℚ) (dt : ℚ) :
    freshOK point (Lorenz.mk_init point params3 dt) ∧
    freshOK point (PanXuZhou.mk_init point params3 dt) ∧
    freshOK point (Rossler.mk_init point params3 dt) ∧
    freshOK point (Rikitake.mk_init point params2 dt) := by
  refine ⟨?_, ?_, ?_, ?_⟩ <;>
    norm_num [freshOK, Lorenz.mk_init, PanXuZhou.mk_init, Rossler.mk_init,
      Rikitake.mk_init, Attractor.base_init, Attractor.x_scaled,
      Attractor.y_scaled, Attractor.z_scaled]

/-- Setting an entry and reading it back through `getD` at an in-range
index yields the new entry. -/
theorem getD_set_self {α : Type} (l : List α) (i : ℕ) (a d : α)
    (h : i < l.length) : (l.set i a).getD i d = a := by
  simp [List.getD_eq_getElem?_getD, List.getElem?_set_eq_of_lt, h]

/-- Arithmetic facts about the affine normalisation map of one axis with a
positive extent. -/
theorem scaledAxisFacts (mn mx : ℚ) (h : mn < mx) :
    100 * (mn - mn) / (mx - mn) = 0 ∧
    100 * (mx - mn) / (mx - mn) = 100 ∧
    (∀ v, mx < v → 100 < 100 * (v - mn) / (mx - mn)) ∧
    (∀ v, v < mn → 100 * (v - mn) / (mx - mn) < 0) := by
  have hpos : 0 < mx - mn := sub_pos.mpr h
  refine ⟨by simp, ?_, ?_, ?_⟩
  · rw [mul_div_assoc, div_self (ne_of_gt hpos), mul_one]
  · intro v hv
    rw [lt_div_iff₀ hpos]
    nlinarith
  · intro v hv
    apply div_neg_of_neg_of_pos _ hpos
    nlinarith

/-- C5: the normalizer computes `100 * (value - min) / (max - min)` and is
not clamped — for any axis whose calibrated range is non-degenerate, the
minimum maps to 0, the maximum to 100, and values beyond either calibrated
bound yield defined scaled values strictly outside `[0, 100]` rather than
an error. -/
theorem scaled_unclamped (att : Attractor)
    (hx : att.x_min < att.x_max) (hxr : att.x_range = att.x_max - att.x_min)
    (hy : att.y_min < att.y_max) (hyr : att.y_range = att.y_max - att.y_min)
    (hz : att.z_min < att.z_max) (hzr : att.z_range = att.z_max - att.z_min) :
    (∀ v : ℚ, ({ att with x := v } : Attractor).x_scaled
        = some (100 * (v - att.x_min) / (att.x_max - att.x_min))) ∧
    ({ att with x := att.x_min } : Attractor).x_scaled = some 0 ∧
    ({ att with x := att.x_max } : Attractor).x_scaled = some 100 ∧
    (∀ v : ℚ, att.x_max < v → ∃ q,
      ({ att with x := v } : Attractor).x_scaled = some q ∧ 100 < q) ∧
    (∀ v : ℚ, v < att.x_min → ∃ q,
      ({ att with x := v } : Attractor).x_scaled = some q ∧ q < 0) ∧
    (∀ v : ℚ, ({ att with y := v } : Attractor).y_scaled
        = some (100 * (v - att.y_min) / (att.y_max - att.y_min))) ∧
    ({ att with y := att.y_min } : Attractor).y_scaled = some 0 ∧
    ({ att with y := att.y_max } : Attractor).y_scaled = some 100 ∧
    (∀ v : ℚ, att.y_max < v → ∃ q,
      ({ att with y := v } : Attractor).y_scaled = some q ∧ 100 < q) ∧
    (∀ v : ℚ, v < att.y_min → ∃ q,
      ({ att with y := v } : Attractor).y_scaled = some q ∧ q < 0) ∧
    (∀ v : ℚ, ({ att with z := v } : Attractor).z_scaled
        = some (100 * (v - att.z_min) / (att.z_max - att.z_min))) ∧
    ({ att with z := att.z_min } : Attractor).z_scaled = some 0 ∧
    ({ att with z := att.z_max } : Attractor).z_scaled = some 100 ∧
    (∀ v : ℚ, att.z_max < v → ∃ q,
      ({ att with z := v } : Attractor).z_scaled = some q ∧ 100 < q) ∧
    (∀ v : ℚ, v < att.z_min → ∃ q,
      ({ att with z := v } : Attractor).z_scaled = some q ∧ q < 0) := by
  have hxne : att.x_range ≠ 0 := by
    rw [hxr]; exact ne_of_gt (sub_pos.mpr hx)
  have hyne : att.y_range ≠ 0 := by
    rw [hyr]; exact ne_of_gt (sub_pos.mpr hy)
  have hzne : att.z_range ≠ 0 := by
    rw [hzr]; exact ne_of_gt (sub_pos.mpr hz)
  have fx : ∀ v : ℚ, ({ att with x := v } : Attractor).x_scaled
      = some (100 * (v - att.x_min) / (att.x_max - att.x_min)) := by
    intro v
    show (if att.x_range = 0 then none
      else some (100 * (v - att.x_min) / att.x_range)) = _
    rw [if_neg hxne, hxr]
  have fy : ∀ v : ℚ, ({ att with y := v } : Attractor).y_scaled
      = some (100 * (v - att.y_min) / (att.y_max - att.y_min)) := by
    intro v
    show (if att.y_range = 0 then none
      else some (100 * (v - att.y_min) / att.y_range)) = _
    rw [if_neg hyne, hyr]
  have fz : ∀ v : ℚ, ({ att with z := v } : Attractor).z_scaled
      = some (100 * (v - att.z_min) / (att.z_max - att.z_min)) := by
    intro v
    show (if att.z_range = 0 then none
      else some (100 * (v - att.z_min) / att.z_range)) = _
    rw [if_neg hzne, hzr]
  obtain ⟨x0, x100, xhi, xlo⟩ := scaledAxisFacts att.x_min att.x_max hx
  obtain ⟨y0, y100, yhi, ylo⟩ := scaledAxisFacts att.y_min att.y_max hy
  obtain ⟨z0, z100, zhi, zlo⟩ := scaledAxisFacts att.z_min att.z_max hz
  refine ⟨fx, ?_, ?_, ?_, ?_, fy, ?_, ?_, ?_, ?_, fz, ?_, ?_, ?_, ?_⟩
  · rw [fx att.x_min, x0]
  · rw [fx att.x_max, x100]
  · exact fun v hv => ⟨_, fx v, xhi v hv⟩
  · exact fun v hv => ⟨_, fx v, xlo v hv⟩
  · rw [fy att.y_min, y0]
  · rw [fy att.y_max, y100]
  · exact fun v hv => ⟨_, fy v, yhi v hv⟩
  · exact fun v hv => ⟨_, fy v, ylo v hv⟩
  · rw [fz att.z_min, z0]
  · rw [fz att.z_max, z100]
  · exact fun v hv => ⟨_, fz v, zhi v hv⟩
  · exact fun v hv => ⟨_, fz v, zlo v hv⟩

/-- Witness for C5: the normalisation theorem applied to a concrete
calibrated attractor with bounds `x` in `[0,2]`, `y` in `[0,4]`,
`z` in `[1,3]`. -/
theorem scaled_unclamped_witness :
    ({ calibAtt with x := calibAtt.x_min } : Attractor).x_scaled = some 0 ∧
    ({ calibAtt with x := calibAtt.x_max } : Attractor).x_scaled = some 100 ∧
    ({ calibAtt with y := calibAtt.y_min } : Attractor).y_scaled = some 0 ∧
    ({ calibAtt with z := calibAtt.z_max } : Attractor).z_scaled = some 100 := by
  obtain ⟨-, h2, h3, -, -, -, h7, -, -, -, -, -, h13, -, -⟩ :=
    scaled_unclamped calibAtt
      (by norm_num [calibAtt]) (by norm_num [calibAtt])
      (by norm_num [calibAtt]) (by norm_num [calibAtt])
      (by norm_num [calibAtt]) (by norm_num [calibAtt])
  exact ⟨h2, h3, h7, h13⟩

/-- Value of `update_speed_period` on the lower knob half, as the straight
line through `(0, 1000)` and `(50, 100)`. -/
theorem update_speed_lowPiece (v : ℚ) (_h0 : 0 ≤ v) (h50 : v ≤ 50) :
    update_speed_period v = 1000 - 18 * v := by
  unfold update_speed_period
  split_ifs with hv hv2
  · rw [hv]; ring
  · ring
  · have hv50 : v = 50 := le_antisymm h50 (not_lt.mp hv2)
    rw [hv50]; norm_num

/-- Value of `update_speed_period` on the upper knob half, as the straight
line through `(50, 100)` and `(100, 10)`. -/
theorem update_speed_highPiece (v : ℚ) (h50 : 50 ≤ v) :
    update_speed_period v = 100 - 9 / 5 * (v - 50) := by
  unfold update_speed_period
  split_ifs with hv hv2
  · exfalso; rw [hv] at h50; norm_num at h50
  · exfalso; linarith
  · ring

/-- C7: the knob-to-period mapping hits 1000 at 0, 100 at 50 and 10 at 100,
is linear (hence a linear interpolation of its breakpoints) on each of
`[0, 50]` and `[50, 100]`, and is monotonically decreasing on `[0, 100]`. -/
theorem update_speed_mapping :
    update_speed_period 0 = 1000 ∧
    update_speed_period 50 = 100 ∧
    update_speed_period 100 = 10 ∧
    (∀ v : ℚ, 0 ≤ v → v ≤ 50 → update_speed_period v = 1000 - 18 * v) ∧
    (∀ v : ℚ, 50 ≤ v → v ≤ 100 →
      update_speed_period v = 100 - 9 / 5 * (v - 50)) ∧
    (∀ v w : ℚ, 0 ≤ v → v ≤ w → w ≤ 100 →
      update_speed_period w ≤ update_speed_period v) := by
  refine ⟨by norm_num [update_speed_period], ?_, ?_,
    fun v h0 h50 => update_speed_lowPiece v h0 h50,
    fun v h50 _ => update_speed_highPiece v h50, ?_⟩
  · rw [update_speed_highPiece 50 le_rfl]; norm_num
  · rw [update_speed_highPiece 100 (by norm_num)]; norm_num
  · intro v w h0 hvw hw100
    rcases le_or_lt w 50 with hw | hw
    · rw [update_speed_lowPiece v h0 (le_trans hvw hw),
        update_speed_lowPiece w (le_trans h0 hvw) hw]
      linarith
    · rcases le_or_lt 50 v with hv | hv
      · rw [update_speed_highPiece v hv, update_speed_highPiece w hw.le]
        linarith
      · rw [update_speed_lowPiece v h0 hv.le, update_speed_highPiece w hw.le]
        linarith

/-- Witness for C7: the mapping theorem evaluated at 25, 75 and at the
monotone pair 10 and 60. -/
theorem update_speed_mapping_witness :
    update_speed_period 25 = 1000 - 18 * 25 ∧
    update_speed_period 75 = 100 - 9 / 5 * (75 - 50) ∧
    update_speed_period 60 ≤ update_speed_period 10 :=
  ⟨update_speed_mapping.2.2.2.1 25 (by norm_num) (by norm_num),
   update_speed_mapping.2.2.2.2.1 75 (by norm_num) (by norm_num),
   update_speed_mapping.2.2.2.2.2 10 60 (by norm_num) (by norm_num)
     (by norm_num)⟩

/-- One range event keeps the range inside `[1, MAX_OUTPUT]`. -/
theorem applyRangeEv_bounds (st : StrangeAttractor) (e : RangeEv)
    (h1 : 1 ≤ st.range) (h2 : st.range ≤ MAX_OUTPUT) :
    1 ≤ (applyRangeEv st e).range ∧ (applyRangeEv st e).range ≤ MAX_OUTPUT := by
  have h5 : MAX_OUTPUT = 5 := rfl
  rw [h5] at h2 ⊢
  cases e <;>
    simp only [applyRangeEv, StrangeAttractor.b1Pressed,
      StrangeAttractor.b2Pressed, h5] <;>
    norm_num <;> split_ifs <;> constructor <;> omega

/-- C8: under any sequence of short presses of button 1 (decrement) and
button 2 (increment), starting from any state whose range is in
`[1, MAX_OUTPUT]`, the output range never leaves `[1, MAX_OUTPUT]`. -/
theorem range_clamp (evs : List RangeEv) (st : StrangeAttractor)
    (h1 : 1 ≤ st.range) (h2 : st.range ≤ MAX_OUTPUT) :
    1 ≤ (evs.foldl applyRangeEv st).range ∧
    (evs.foldl applyRangeEv st).range ≤ MAX_OUTPUT := by
  induction evs generalizing st with
  | nil => exact ⟨h1, h2⟩
  | cons e evs ih =>
      rw [List.foldl_cons]
      exact ih (applyRangeEv st e) (applyRangeEv_bounds st e h1 h2).1
        (applyRangeEv_bounds st e h1 h2).2

/-- Witness for C8: the invariant applied to a concrete event sequence from
the initial controller state. -/
theorem range_clamp_witness :
    1 ≤ (([RangeEv.dec, RangeEv.dec, RangeEv.inc]).foldl applyRangeEv
      sampleCtrl).range ∧
    (([RangeEv.dec, RangeEv.dec, RangeEv.inc]).foldl applyRangeEv
      sampleCtrl).range ≤ MAX_OUTPUT :=
  range_clamp [RangeEv.dec, RangeEv.dec, RangeEv.inc] sampleCtrl (by decide)
    (by decide)

/-- C9: while the freeze flag is set, a tick leaves every attractor (hence
the active coordinates), the selection, the range and the threshold
unchanged; a second frozen tick emits exactly the same outputs and gates;
and a tick taken right after unfreezing moves the active attractor by
exactly one step from the frozen state. -/
theorem freeze_tick (st : StrangeAttractor) (now1 now2 now3 : ℤ)
    (hfz : st.freeze = true)
    (hsel : st.selected_attractor < st.attractors.length) :
    (st.update now1).1.attractors = st.attractors ∧
    (st.update now1).1.selected_attractor = st.selected_attractor ∧
    (st.update now1).1.freeze = true ∧
    (st.update now1).1.range = st.range ∧
    (st.update now1).1.threshold = st.threshold ∧
    ((st.update now1).1.update now2).2 = (st.update now1).2 ∧
    ((st.update now1).1.update now2).1.attractors = st.attractors ∧
    ((({ (st.update now1).1 with freeze := false } : StrangeAttractor).update
        now3).1).active = Attractor.step st.active := by
  have hval : st.update_values = st := by
    unfold StrangeAttractor.update_values
    rw [hfz]
    simp
  refine ⟨?_, ?_, ?_, ?_, ?_, ?_, ?_, ?_⟩
  · simp only [StrangeAttractor.update, hval]
  · simp only [StrangeAttractor.update, hval]
  · simp only [StrangeAttractor.update, hval]; exact hfz
  · simp only [StrangeAttractor.update, hval]
  · simp only [StrangeAttractor.update, hval]
  · simp only [StrangeAttractor.update, hval, StrangeAttractor.update_values,
      StrangeAttractor.active, hfz]
    simp [hfz]
  · simp only [StrangeAttractor.update, hval, StrangeAttractor.update_values,
      StrangeAttractor.active, hfz]
    simp [hfz]
  · simp only [StrangeAttractor.update, hval, StrangeAttractor.update_values,
      StrangeAttractor.active, hfz]
    simp only [Bool.false_eq_true, if_false]
    exact getD_set_self _ _ _ _ hsel

/-- Witness for C9: the freeze theorem applied to the frozen initial
controller state at three concrete times. -/
theorem freeze_tick_witness :
    (sampleFrozen.update 1).1.attractors = sampleFrozen.attractors ∧
    ((sampleFrozen.update 1).1.update 2).2 = (sampleFrozen.update 1).2 ∧
    ((({ (sampleFrozen.update 1).1 with freeze := false } :
        StrangeAttractor).update 3).1).active
      = Attractor.step sampleFrozen.active := by
  have h := freeze_tick sampleFrozen 1 2 3 rfl (by decide)
  exact ⟨h.1, h.2.2.2.2.2.1, h.2.2.2.2.2.2.2⟩

/-- An update call never changes the period. -/
theorem update_period_inv (st : StrangeAttractor) (now : ℤ) :
    (st.update now).1.period = st.period := by
  simp only [StrangeAttractor.update, StrangeAttractor.update_values]
  split_ifs <;> rfl

/-- An update call never changes the threshold. -/
theorem update_threshold_inv (st : StrangeAttractor) (now : ℤ) :
    (st.update now).1.threshold = st.threshold := by
  simp only [StrangeAttractor.update, StrangeAttractor.update_values]
  split_ifs <;> rfl

/-- C3 (amended): in one loop iteration the tick fires exactly when the
elapsed time strictly exceeds the freshly sampled period; with elapsed time
at most the period no step or output emission occurs; and the period and
threshold are re-sampled from the knobs on every iteration either way. -/
theorem loopIter_tick_boundary (k1v k2v : ℚ) (now : ℤ)
    (st : StrangeAttractor) :
    ((st.loopIter k1v k2v now).2 ≠ none ↔
      update_speed_period k1v < ((now - st.checkpoint : ℤ) : ℚ)) ∧
    (st.loopIter k1v k2v now).1.period = update_speed_period k1v ∧
    (st.loopIter k1v k2v now).1.threshold = k2v ∧
    (((now - st.checkpoint : ℤ) : ℚ) ≤ update_speed_period k1v →
      (st.loopIter k1v k2v now).1.attractors = st.attractors ∧
      (st.loopIter k1v k2v now).2 = none) := by
  simp only [StrangeAttractor.loopIter, StrangeAttractor.update_speed,
    StrangeAttractor.update_threshold]
  split_ifs with h
  · refine ⟨⟨fun _ => h, fun _ => by simp⟩, ?_, ?_,
      fun hle => absurd h (not_lt.mpr hle)⟩
    · rw [update_period_inv]
    · rw [update_threshold_inv]
  · exact ⟨⟨fun hne => absurd rfl hne, fun hlt => absurd hlt h⟩, rfl, rfl,
      fun _ => ⟨rfl, rfl⟩⟩

/-- Counterexample to C3 as stated: with the period knob at noon
(period 100) and elapsed time exactly 100, the elapsed time is at least the
period, yet the loop iteration performs no tick — the code tests with a
strict inequality, not the claimed non-strict one. -/
theorem loopIter_boundary_cex :
    (sampleCtrl.loopIter 50 20 100).2 = none ∧
    update_speed_period 50 ≤ ((100 - sampleCtrl.checkpoint : ℤ) : ℚ) := by
  constructor
  · norm_num [StrangeAttractor.loopIter, StrangeAttractor.update_speed,
      StrangeAttractor.update_threshold, sampleCtrl, update_speed_period]
  · norm_num [sampleCtrl, update_speed_period]

/-- Witness for C3: the boundary theorem applied at a concrete iteration in
which the elapsed time 50 does not exceed the period 100. -/
theorem loopIter_tick_boundary_witness :
    (sampleCtrl.loopIter 50 20 50).1.period = update_speed_period 50 ∧
    (sampleCtrl.loopIter 50 20 50).1.threshold = 20 ∧
    (sampleCtrl.loopIter 50 20 50).1.attractors = sampleCtrl.attractors ∧
    (sampleCtrl.loopIter 50 20 50).2 = none := by
  have h := loopIter_tick_boundary 50 20 50 sampleCtrl
  have hle : ((50 - sampleCtrl.checkpoint : ℤ) : ℚ)
      ≤ update_speed_period 50 := by
    norm_num [sampleCtrl, update_speed_period]
  exact ⟨h.2.1, h.2.2.1, (h.2.2.2 hle).1, (h.2.2.2 hle).2⟩

/-- C4 (amended): a button-1 release with duration at most 300ms is a short
press — the range drops by 1 clamped below at 1 and neither the selection
nor any model is touched; a release with duration strictly over 300ms is a
long press — the selection cycles forward with wrap-around while the
attractor list (hence every model coordinate) and the range are unchanged. -/
theorem button1_semantics (d : ℤ) (st : StrangeAttractor) :
    (d ≤ 300 →
      (st.b1Pressed d).range = max 1 (st.range - 1) ∧
      (st.b1Pressed d).selected_attractor = st.selected_attractor ∧
      (st.b1Pressed d).attractors = st.attractors) ∧
    (300 < d →
      (st.b1Pressed d).selected_attractor
        = (st.selected_attractor + 1) % st.attractors.length ∧
      (st.b1Pressed d).attractors = st.attractors ∧
      (st.b1Pressed d).range = st.range) := by
  unfold StrangeAttractor.b1Pressed
  constructor
  · intro hd
    rw [if_neg (by omega : ¬ d > 300)]
    refine ⟨?_, rfl, rfl⟩
    show (if st.range - 1 < 1 then 1 else st.range - 1) = max 1 (st.range - 1)
    split_ifs <;> omega
  · intro hd
    rw [if_pos hd]
    exact ⟨rfl, rfl, rfl⟩

/-- Counterexample to C4 as stated: a press of exactly 300ms is not under
300ms, so the claim classifies it long — yet the handler leaves the
selection unchanged and decrements the range, i.e. treats it as a short
press. -/
theorem button1_boundary_cex :
    (sampleCtrl.b1Pressed 300).selected_attractor
      = sampleCtrl.selected_attractor ∧
    (sampleCtrl.b1Pressed 300).range = sampleCtrl.range - 1 ∧
    ¬ ((300 : ℤ) < 300) := by
  refine ⟨rfl, ?_, by omega⟩
  decide

/-- Witness for C4: the button theorem applied to a 100ms press and a 400ms
press on the initial controller state. -/
theorem button1_semantics_witness :
    (sampleCtrl.b1Pressed 100).range = max 1 (sampleCtrl.range - 1) ∧
    (sampleCtrl.b1Pressed 100).selected_attractor
      = sampleCtrl.selected_attractor ∧
    (sampleCtrl.b1Pressed 400).selected_attractor
      = (sampleCtrl.selected_attractor + 1) % sampleCtrl.attractors.length ∧
    (sampleCtrl.b1Pressed 400).attractors = sampleCtrl.attractors := by
  have hs := (button1_semantics 100 sampleCtrl).1 (by omega)
  have hl := (button1_semantics 400 sampleCtrl).2 (by omega)
  exact ⟨hs.1, hs.2.1, hl.1, hl.2.1⟩

/-- C1 (amended): when a calibration run observes max equal to min on the
x axis, the range stored for that axis is the zero difference itself — not
any fixed default — and the subsequent scaled-value computation signals a
division error (`none`) instead of producing a value; `estimate_ranges`
itself performs no division, so the other models still get calibrated. -/
theorem degenerate_range_zero (att : Attractor) (n : ℕ)
    (h : (estimate_ranges n att).x_max = (estimate_ranges n att).x_min) :
    (estimate_ranges n att).x_range = 0 ∧
    (estimate_ranges n att).x_scaled = none := by
  have hr : (estimate_ranges n att).x_range
      = (estimate_ranges n att).x_max - (estimate_ranges n att).x_min := rfl
  have h0 : (estimate_ranges n att).x_range = 0 := by rw [hr, h, sub_self]
  refine ⟨h0, ?_⟩
  unfold Attractor.x_scaled
  rw [if_pos h0]

/-- Counterexample to C1 as stated: calibrating a Lorenz instance started
at the fixed point at the origin observes `x_max = x_min`, yet the stored
range is 0 — in particular not the default constant 100 — and the
scaled-value computation signals a division error instead of succeeding. -/
theorem degenerate_calibration_cex :
    (estimate_ranges 1 degenAtt).x_max = (estimate_ranges 1 degenAtt).x_min ∧
    (estimate_ranges 1 degenAtt).x_range = 0 ∧
    ¬ (estimate_ranges 1 degenAtt).x_range = 100 ∧
    (estimate_ranges 1 degenAtt).x_scaled = none := by
  norm_num [estimate_ranges, calibLoop, calibStep, degenAtt, Lorenz.mk_init,
    Attractor.base_init, Attractor.step, Lorenz.step, Attractor.x_scaled]

/-- Witness for C1: the degeneracy theorem applied to the concrete
fixed-point Lorenz instance after one calibration step. -/
theorem degenerate_range_zero_witness :
    (estimate_ranges 1 degenAtt).x_range = 0 ∧
    (estimate_ranges 1 degenAtt).x_scaled = none :=
  degenerate_range_zero degenAtt 1 (by
    norm_num [estimate_ranges, calibLoop, calibStep, degenAtt, Lorenz.mk_init,
      Attractor.base_init, Attractor.step, Lorenz.step])
